import Mathlib

/-!
Verification of the LymphHub forward-authentication gateway
(src/backend/main.py) against its natural-language specification.

The backend is a FastAPI application.  Its handlers are embedded as pure
Lean functions over:
  * `Config`  — the environment-variable configuration read at module load;
  * `Env`     — oracles for the network calls made through the third-party
                `keycloak_openid` client (userinfo, decode_token, token
                exchange), which are external to this repository;
  * `Request` — the projection of an inbound HTTP request that the
                handlers actually read (selected headers and the session
                cookie).
-/

namespace LymphHub

/-- Configuration read from environment variables at module load
(main.py lines 12-17); each field carries the source default. -/
structure Config where
  keycloakUrl : String
  keycloakRealm : String
  keycloakClientId : String
  keycloakClientSecret : String
  publicUrl : String
  cookieDomain : String

/-- The defaults hard-coded in the `os.getenv` calls of main.py. -/
def defaultConfig : Config :=
  { keycloakUrl := "https://auth.lyckabc.xyz"
    keycloakRealm := "toji"
    keycloakClientId := "lymphhub-portal"
    keycloakClientSecret := "change-me"
    publicUrl := "https://lymphhub.lyckabc.xyz"
    cookieDomain := ".lyckabc.xyz" }

/-- The claim set returned by the identity provider for a verified token.
`token_info.get(k, "")` in main.py reads these as a partial dictionary,
so each field is optional. -/
structure Claims where
  preferred_username : Option String
  email : Option String
  name : Option String

/-- Verification failure kinds of the Token Verifier contract (spec section 4.1). -/
inductive VerifyError
  | Expired
  | BadSignature
  | AudienceMismatch
  | Malformed
  | ProviderUnreachable

/-- The token-endpoint response used by the callback handler: main.py reads
`token["access_token"]` and `token.get("expires_in", 300)`, so
`expires_in` is optional. -/
structure TokenResponse where
  access_token : String
  expires_in : Option Nat

/-- Oracles for the identity-provider network calls made through the
third-party `keycloak_openid` client (not part of this repository).
Each either returns a value or raises, modelled with `Except`. -/
structure Env where
  userinfo : String → Except VerifyError Claims
  decode_token : String → Except VerifyError Claims
  token : String → Except String TokenResponse

/-- The module-level global names defined in src/backend/main.py: the
imported names (lines 1-7) followed by the module-level assignments and
function definitions.  `KEYCLOAK_PUBLIC_KEY` is not among them. -/
def moduleGlobals : List String :=
  ["FastAPI", "Header", "HTTPException", "Request", "Response", "Depends",
   "Cookie", "RedirectResponse", "JSONResponse", "BaseModel", "Optional",
   "List", "os", "KeycloakOpenID", "jwt", "JWTError",
   "app", "KEYCLOAK_URL", "KEYCLOAK_REALM", "KEYCLOAK_CLIENT_ID",
   "KEYCLOAK_CLIENT_SECRET", "LYMPHHUB_PUBLIC_URL", "COOKIE_DOMAIN",
   "keycloak_openid", "Service", "SERVICES", "health_check",
   "forward_auth", "login", "callback", "get_current_user", "get_services"]

/-- main.py line 83: the token is decoded locally when the name
`KEYCLOAK_PUBLIC_KEY` is in the module globals, otherwise it is validated
by the remote userinfo call. -/
def verifyToken (env : Env) (s : String) : Except VerifyError Claims :=
  if moduleGlobals.contains "KEYCLOAK_PUBLIC_KEY" then
    env.decode_token s
  else
    env.userinfo s

/-- The projection of an inbound request read by the handlers: the four
headers consulted by `forward_auth` and the `lymphhub_session` cookie.
A `none` field is an absent header/cookie. -/
structure Request where
  accept : Option String
  xForwardedUri : Option String
  xForwardedHost : Option String
  xForwardedProto : Option String
  lymphhub_session : Option String

/-- `listStartsWith hay needle` is true when `needle` is an initial
segment of `hay`. -/
def listStartsWith : List Char → List Char → Bool
  | _, [] => true
  | [], _ :: _ => false
  | a :: as, b :: bs => a == b && listStartsWith as bs

/-- `containsSeq needle hay` is true when `needle` occurs contiguously in
`hay`; this is Python's `needle in hay` on strings. -/
def containsSeq (needle : List Char) : List Char → Bool
  | [] => needle.isEmpty
  | c :: rest => listStartsWith (c :: rest) needle || containsSeq needle rest

/-- Python's `"text/html" in accept` (main.py lines 55 and 97). -/
def acceptsHtml (accept : String) : Bool :=
  containsSeq "text/html".toList accept.toList

/-- Modelled from the spec: the third-party `KeycloakOpenID.auth_url` is
not part of this repository.  Section 4.3 of the spec states the login URL
always includes `response_type=code`, the configured client id, the
callback URL, the requested scopes, and the state value. -/
structure AuthUrl where
  endpoint : String
  response_type : String
  client_id : String
  redirect_uri : String
  scope : String
  state : String

/-- Modelled from the spec: the identity provider's authorization endpoint
for the configured realm (spec sections 4.3 and 6). -/
def authEndpoint (cfg : Config) : String :=
  cfg.keycloakUrl ++ "/realms/" ++ cfg.keycloakRealm ++ "/protocol/openid-connect/auth"

/-- Modelled from the spec: section 4.3 says that when no state value is
available, a default state of `/` is used; the `auth_url` call on main.py
lines 98-101 supplies no state. -/
def defaultState : String := "/"

/-- Modelled from the spec: `buildLoginURL(callbackURL, scopes, state)` of
spec section 4.3, standing for the third-party `keycloak_openid.auth_url`. -/
def auth_url (cfg : Config) (redirect_uri : String) (scope : String)
    (state : String) : AuthUrl :=
  { endpoint := authEndpoint cfg
    response_type := "code"
    client_id := cfg.keycloakClientId
    redirect_uri := redirect_uri
    scope := scope
    state := state }

/-- The redirect URI passed to every `auth_url` and token-exchange call:
`f"{LYMPHHUB_PUBLIC_URL}/api/callback"`. -/
def callbackUri (cfg : Config) : String :=
  cfg.publicUrl ++ "/api/callback"

/-- The three response shapes `forward_auth` can return: a 200 `Response`
with identity headers, a `RedirectResponse` to a login URL, or a bare 401
`Response`. -/
inductive FwdResponse
  | ok (headers : List (String × String))
  | redirect (url : AuthUrl)
  | unauthorized

/-- HTTP status of a `forward_auth` response: `Response(status_code=200)`,
FastAPI's `RedirectResponse` default 307, and `Response(status_code=401)`. -/
def FwdResponse.status : FwdResponse → Nat
  | .ok _ => 200
  | .redirect _ => 307
  | .unauthorized => 401

/-- Body of a `forward_auth` response: every branch of main.py constructs
a response with no content. -/
def FwdResponse.body : FwdResponse → String
  | .ok _ => ""
  | .redirect _ => ""
  | .unauthorized => ""

/-- main.py lines 58-62: the original target URL reconstructed from the
forwarding headers, with the source defaults (`/`, `""`, `"http"`); the
Python truthiness test `if original_host` is an emptiness test. -/
def target_url (req : Request) : String :=
  let original_uri := req.xForwardedUri.getD "/"
  let original_host := req.xForwardedHost.getD ""
  let proto := req.xForwardedProto.getD "http"
  if original_host ≠ "" then proto ++ "://" ++ original_host ++ original_uri
  else original_uri

/-- main.py lines 44-103: the forward-auth endpoint `GET /api/auth`.
`if not lymphhub_session` treats an absent and an empty cookie alike; the
try/except around verification is the `Except` case split. -/
def forward_auth (cfg : Config) (env : Env) (req : Request) : FwdResponse :=
  if req.lymphhub_session.getD "" = "" then
    if acceptsHtml (req.accept.getD "") then
      FwdResponse.redirect
        (auth_url cfg (callbackUri cfg) "openid email profile" (target_url req))
    else
      FwdResponse.unauthorized
  else
    match verifyToken env (req.lymphhub_session.getD "") with
    | Except.ok token_info =>
        FwdResponse.ok
          [("X-Auth-User", token_info.preferred_username.getD ""),
           ("X-Auth-Email", token_info.email.getD ""),
           ("X-Auth-Name", token_info.name.getD "")]
    | Except.error _ =>
        if acceptsHtml (req.accept.getD "") then
          FwdResponse.redirect
            (auth_url cfg (callbackUri cfg) "openid email profile" defaultState)
        else
          FwdResponse.unauthorized

/-- The cookie attributes of the `response.set_cookie` call on main.py
lines 127-135. -/
structure CookieSpec where
  key : String
  value : String
  httponly : Bool
  domain : String
  max_age : Nat
  secure : Bool
  samesite : String

/-- main.py lines 127-135: the session cookie set by the callback handler. -/
def set_session_cookie (cfg : Config) (tok : TokenResponse) : CookieSpec :=
  { key := "lymphhub_session"
    value := tok.access_token
    httponly := true
    domain := cfg.cookieDomain
    max_age := tok.expires_in.getD 300
    secure := true
    samesite := "lax" }

/-- The two response shapes of the callback handler: a redirect carrying a
fresh session cookie, or an `HTTPException`. -/
inductive CallbackResponse
  | redirect (url : String) (cookie : CookieSpec)
  | httpError (status : Nat) (detail : String)

/-- HTTP status of a callback response (RedirectResponse default 307). -/
def CallbackResponse.status : CallbackResponse → Nat
  | .redirect _ _ => 307
  | .httpError s _ => s

/-- The session cookie a callback response sets, if any. -/
def CallbackResponse.cookieSet : CallbackResponse → Option CookieSpec
  | .redirect _ c => some c
  | .httpError _ _ => none

/-- main.py lines 114-138: the callback endpoint `GET /api/callback`.
The `state` query parameter defaults to `/` (FastAPI default argument);
the try/except around the code exchange is the `Except` case split. -/
def callback (cfg : Config) (env : Env) (code : String)
    (state : Option String) : CallbackResponse :=
  let st := state.getD "/"
  match env.token code with
  | Except.ok tok =>
      CallbackResponse.redirect st (set_session_cookie cfg tok)
  | Except.error e =>
      CallbackResponse.httpError 400 e

/-- Reading the session cookie back from a request's cookie list: FastAPI's
`lymphhub_session: Optional[str] = Cookie(None)` is a lookup by name. -/
def decodeSessionCookie (cookies : List (String × String)) : Option String :=
  (cookies.find? (fun p => p.fst == "lymphhub_session")).map Prod.snd

/-- main.py lines 27-32: a service directory entry. -/
structure Service where
  id : String
  name : String
  url : String
  description : String
  icon : String

/-- main.py lines 34-38: the static service list. -/
def SERVICES : List Service :=
  [{ id := "plane", name := "Plane", url := "https://todo.lyckabc.xyz",
     description := "Project Management", icon := "✈️" },
   { id := "keycloak", name := "Keycloak", url := "https://auth.lyckabc.xyz",
     description := "Identity Provider", icon := "🔐" },
   { id := "pgadmin", name := "pgAdmin", url := "https://pgadmin.lyckabc.xyz",
     description := "Database Management", icon := "🐘" }]

/-- main.py lines 150-152: `GET /api/services` ignores the request and
returns the static list. -/
def get_services (_req : Request) : List Service := SERVICES

/-! ### Concrete instances used by the witness theorems -/

/-- A concrete claim set with all three identity claims present. -/
def claimsW : Claims :=
  { preferred_username := some "toji"
    email := some "toji@lyckabc.xyz"
    name := some "Toji" }

/-- A concrete token response with an explicit lifetime. -/
def tokW : TokenResponse := { access_token := "tokenvalue", expires_in := some 600 }

/-- A concrete token response where the provider omits `expires_in`. -/
def tokNoExp : TokenResponse := { access_token := "tokenvalue2", expires_in := none }

/-- Provider oracle where verification and exchange succeed. -/
def envOk : Env :=
  { userinfo := fun _ => Except.ok claimsW
    decode_token := fun _ => Except.error VerifyError.Malformed
    token := fun _ => Except.ok tokW }

/-- Provider oracle where verification and exchange fail. -/
def envFail : Env :=
  { userinfo := fun _ => Except.error VerifyError.Expired
    decode_token := fun _ => Except.error VerifyError.Malformed
    token := fun _ => Except.error "invalid_grant" }

/-- Provider oracle whose token response omits `expires_in`. -/
def envNoExp : Env :=
  { userinfo := fun _ => Except.ok claimsW
    decode_token := fun _ => Except.error VerifyError.Malformed
    token := fun _ => Except.ok tokNoExp }

/-- A browser navigation with no session cookie. -/
def reqHtmlNoCookie : Request :=
  { accept := some "text/html,application/xhtml+xml"
    xForwardedUri := some "/boards"
    xForwardedHost := some "todo.lyckabc.xyz"
    xForwardedProto := some "https"
    lymphhub_session := none }

/-- An API call with no session cookie. -/
def reqApiNoCookie : Request :=
  { accept := some "application/json"
    xForwardedUri := some "/boards"
    xForwardedHost := some "todo.lyckabc.xyz"
    xForwardedProto := some "https"
    lymphhub_session := none }

/-- An API call carrying a session cookie. -/
def reqApiCookie : Request :=
  { accept := some "application/json"
    xForwardedUri := some "/boards"
    xForwardedHost := some "todo.lyckabc.xyz"
    xForwardedProto := some "https"
    lymphhub_session := some "sometoken" }

/-- A browser navigation carrying a session cookie. -/
def reqHtmlCookie : Request :=
  { accept := some "text/html"
    xForwardedUri := some "/boards"
    xForwardedHost := some "todo.lyckabc.xyz"
    xForwardedProto := some "https"
    lymphhub_session := some "sometoken" }

/-! ### Helper lemmas -/

/-- The name `KEYCLOAK_PUBLIC_KEY` is never defined among the module-level
globals of main.py. -/
theorem moduleGlobals_no_public_key :
    moduleGlobals.contains "KEYCLOAK_PUBLIC_KEY" = false := by decide

/-- Consequently the token is always verified by the remote userinfo call. -/
theorem verifyToken_eq_userinfo (env : Env) (s : String) :
    verifyToken env s = env.userinfo s := by
  unfold verifyToken
  rw [moduleGlobals_no_public_key]
  simp

/-- Shape of `forward_auth` when a non-empty session cookie is present. -/
theorem forward_auth_hasSession (cfg : Config) (env : Env) (req : Request)
    (s : String) (hc : req.lymphhub_session = some s) (hne : s ≠ "") :
    forward_auth cfg env req =
      match env.userinfo s with
      | Except.ok token_info =>
          FwdResponse.ok
            [("X-Auth-User", token_info.preferred_username.getD ""),
             ("X-Auth-Email", token_info.email.getD ""),
             ("X-Auth-Name", token_info.name.getD "")]
      | Except.error _ =>
          if acceptsHtml (req.accept.getD "") then
            FwdResponse.redirect
              (auth_url cfg (callbackUri cfg) "openid email profile" defaultState)
          else
            FwdResponse.unauthorized := by
  unfold forward_auth
  rw [hc]
  simp only [Option.getD_some]
  rw [if_neg hne, verifyToken_eq_userinfo]

/-! ### Claim theorems -/

/-- C1: for every request carrying a session cookie whose token fails
verification (expired, bad signature, or any other failure, including a
provider-unreachable failure), the forward-auth response is never 200: it
is either a login redirect or a 401. -/
theorem fa_invalid_never_200 (cfg : Config) (env : Env) (req : Request)
    (s : String) (e : VerifyError)
    (hc : req.lymphhub_session = some s) (hne : s ≠ "")
    (hv : env.userinfo s = Except.error e) :
    (forward_auth cfg env req).status ≠ 200 ∧
      ((∃ u, forward_auth cfg env req = FwdResponse.redirect u) ∨
        forward_auth cfg env req = FwdResponse.unauthorized) := by
  rw [forward_auth_hasSession cfg env req s hc hne, hv]
  cases h : acceptsHtml (req.accept.getD "") <;>
    simp [h, FwdResponse.status]

/-- C1 witness: an expired token on an API request yields a non-200
response. -/
theorem fa_invalid_never_200_witness :
    (forward_auth defaultConfig envFail reqApiCookie).status ≠ 200 ∧
      ((∃ u, forward_auth defaultConfig envFail reqApiCookie = FwdResponse.redirect u) ∨
        forward_auth defaultConfig envFail reqApiCookie = FwdResponse.unauthorized) :=
  fa_invalid_never_200 defaultConfig envFail reqApiCookie "sometoken"
    VerifyError.Expired rfl (by decide) rfl

/-- C2: for every request carrying a session cookie whose token verifies
successfully, the response is 200 with `X-Auth-User`, `X-Auth-Email` and
`X-Auth-Name` equal to the token's `preferred_username`, `email` and
`name` claims. -/
theorem fa_valid_200_headers (cfg : Config) (env : Env) (req : Request)
    (s : String) (info : Claims) (u em nm : String)
    (hc : req.lymphhub_session = some s) (hne : s ≠ "")
    (hv : env.userinfo s = Except.ok info)
    (hu : info.preferred_username = some u)
    (he : info.email = some em)
    (hn : info.name = some nm) :
    forward_auth cfg env req =
      FwdResponse.ok
        [("X-Auth-User", u), ("X-Auth-Email", em), ("X-Auth-Name", nm)] ∧
    (forward_auth cfg env req).status = 200 := by
  rw [forward_auth_hasSession cfg env req s hc hne, hv]
  simp [hu, he, hn, FwdResponse.status]

/-- C2 witness: a valid token yields 200 with the claim values as
identity headers. -/
theorem fa_valid_200_headers_witness :
    forward_auth defaultConfig envOk reqApiCookie =
      FwdResponse.ok
        [("X-Auth-User", "toji"), ("X-Auth-Email", "toji@lyckabc.xyz"),
         ("X-Auth-Name", "Toji")] ∧
    (forward_auth defaultConfig envOk reqApiCookie).status = 200 :=
  fa_valid_200_headers defaultConfig envOk reqApiCookie "sometoken" claimsW
    "toji" "toji@lyckabc.xyz" "Toji" rfl (by decide) rfl rfl rfl rfl

/-- C3: for every request with no session cookie and an HTML-accepting
Accept header, the response is a redirect to the provider's authorization
endpoint whose state equals the original URL reconstructed from the
forwarding headers, path-relative when `X-Forwarded-Host` is absent. -/
theorem fa_nosession_html_redirect (cfg : Config) (env : Env) (req : Request)
    (hc : req.lymphhub_session = none)
    (hh : acceptsHtml (req.accept.getD "") = true) :
    forward_auth cfg env req =
      FwdResponse.redirect
        (auth_url cfg (callbackUri cfg) "openid email profile" (target_url req)) ∧
    (auth_url cfg (callbackUri cfg) "openid email profile" (target_url req)).state
      = target_url req ∧
    (auth_url cfg (callbackUri cfg) "openid email profile" (target_url req)).endpoint
      = authEndpoint cfg ∧
    (req.xForwardedHost = none → target_url req = req.xForwardedUri.getD "/") := by
  refine ⟨?_, rfl, rfl, ?_⟩
  · unfold forward_auth
    rw [hc]
    simp [hh]
  · intro hhost
    unfold target_url
    rw [hhost]
    simp

/-- C3 witness: a browser navigation without a cookie is redirected to
login with the reconstructed URL as state. -/
theorem fa_nosession_html_redirect_witness :
    forward_auth defaultConfig envOk reqHtmlNoCookie =
      FwdResponse.redirect
        (auth_url defaultConfig (callbackUri defaultConfig) "openid email profile"
          (target_url reqHtmlNoCookie)) ∧
    (auth_url defaultConfig (callbackUri defaultConfig) "openid email profile"
        (target_url reqHtmlNoCookie)).state = target_url reqHtmlNoCookie ∧
    (auth_url defaultConfig (callbackUri defaultConfig) "openid email profile"
        (target_url reqHtmlNoCookie)).endpoint = authEndpoint defaultConfig ∧
    (reqHtmlNoCookie.xForwardedHost = none →
      target_url reqHtmlNoCookie = reqHtmlNoCookie.xForwardedUri.getD "/") :=
  fa_nosession_html_redirect defaultConfig envOk reqHtmlNoCookie rfl (by decide)

/-- C4: for every request with no session cookie and an Accept header not
accepting HTML, the response is exactly 401 with empty body. -/
theorem fa_nosession_api_401 (cfg : Config) (env : Env) (req : Request)
    (hc : req.lymphhub_session = none)
    (hh : acceptsHtml (req.accept.getD "") = false) :
    forward_auth cfg env req = FwdResponse.unauthorized ∧
    (forward_auth cfg env req).status = 401 ∧
    (forward_auth cfg env req).body = "" := by
  have h1 : forward_auth cfg env req = FwdResponse.unauthorized := by
    unfold forward_auth
    rw [hc]
    simp [hh]
  exact ⟨h1, by rw [h1]; rfl, by rw [h1]; rfl⟩

/-- C4 witness: an API call without a cookie gets a bare 401. -/
theorem fa_nosession_api_401_witness :
    forward_auth defaultConfig envOk reqApiNoCookie = FwdResponse.unauthorized ∧
    (forward_auth defaultConfig envOk reqApiNoCookie).status = 401 ∧
    (forward_auth defaultConfig envOk reqApiNoCookie).body = "" :=
  fa_nosession_api_401 defaultConfig envOk reqApiNoCookie rfl (by decide)

/-- C5: for every request whose session-cookie token fails verification
and whose Accept header accepts HTML, the response is a login redirect
whose state is the default state `/`, not the reconstructed original URL. -/
theorem fa_invalid_html_default_state (cfg : Config) (env : Env) (req : Request)
    (s : String) (e : VerifyError)
    (hc : req.lymphhub_session = some s) (hne : s ≠ "")
    (hv : env.userinfo s = Except.error e)
    (hh : acceptsHtml (req.accept.getD "") = true) :
    forward_auth cfg env req =
      FwdResponse.redirect
        (auth_url cfg (callbackUri cfg) "openid email profile" defaultState) ∧
    defaultState = "/" ∧
    (auth_url cfg (callbackUri cfg) "openid email profile" defaultState).state
      = "/" := by
  refine ⟨?_, rfl, rfl⟩
  rw [forward_auth_hasSession cfg env req s hc hne, hv]
  simp [hh]

/-- C5 witness: a browser navigation with an expired token is redirected
to login with state `/`. -/
theorem fa_invalid_html_default_state_witness :
    forward_auth defaultConfig envFail reqHtmlCookie =
      FwdResponse.redirect
        (auth_url defaultConfig (callbackUri defaultConfig) "openid email profile"
          defaultState) ∧
    defaultState = "/" ∧
    (auth_url defaultConfig (callbackUri defaultConfig) "openid email profile"
        defaultState).state = "/" :=
  fa_invalid_html_default_state defaultConfig envFail reqHtmlCookie "sometoken"
    VerifyError.Expired rfl (by decide) rfl (by decide)

/-- C6: when the code exchange succeeds the callback responds with a
redirect to the given state (defaulting to `/`) carrying a session cookie
holding the returned access token; when the exchange fails the response
is 400 and no cookie is set. -/
theorem callback_exchange_outcomes (cfg : Config) (env : Env) (code : String)
    (state : Option String) :
    (∀ tok : TokenResponse, env.token code = Except.ok tok →
        callback cfg env code state =
          CallbackResponse.redirect (state.getD "/") (set_session_cookie cfg tok) ∧
        (callback cfg env code state).cookieSet
          = some (set_session_cookie cfg tok) ∧
        (set_session_cookie cfg tok).value = tok.access_token) ∧
    (∀ e : String, env.token code = Except.error e →
        callback cfg env code state = CallbackResponse.httpError 400 e ∧
        (callback cfg env code state).status = 400 ∧
        (callback cfg env code state).cookieSet = none) := by
  constructor
  · intro tok h
    unfold callback
    rw [h]
    exact ⟨rfl, rfl, rfl⟩
  · intro e h
    unfold callback
    rw [h]
    exact ⟨rfl, rfl, rfl⟩

/-- C6 witness: a successful exchange with state `/dashboard` redirects
to `/dashboard` and sets the session cookie. -/
theorem callback_exchange_outcomes_witness :
    callback defaultConfig envOk "goodcode" (some "/dashboard") =
      CallbackResponse.redirect "/dashboard" (set_session_cookie defaultConfig tokW) ∧
    (callback defaultConfig envOk "goodcode" (some "/dashboard")).cookieSet
      = some (set_session_cookie defaultConfig tokW) ∧
    (set_session_cookie defaultConfig tokW).value = tokW.access_token :=
  (callback_exchange_outcomes defaultConfig envOk "goodcode" (some "/dashboard")).1
    tokW rfl

/-- C7: the cookie set by a successful callback round-trips through the
cookie decoder back to the original access token, and always has Domain
equal to the configured parent domain, Secure and HttpOnly set, and
MaxAge equal to the provider-reported lifetime, defaulting to 300 when
the provider omits `expires_in`. -/
theorem session_cookie_roundtrip_attrs (cfg : Config) (env : Env) (code : String)
    (state : Option String) (tok : TokenResponse)
    (h : env.token code = Except.ok tok) :
    ∃ c : CookieSpec,
      (callback cfg env code state).cookieSet = some c ∧
      decodeSessionCookie [(c.key, c.value)] = some tok.access_token ∧
      c.domain = cfg.cookieDomain ∧
      c.secure = true ∧
      c.httponly = true ∧
      c.max_age = tok.expires_in.getD 300 := by
  refine ⟨set_session_cookie cfg tok, ?_, ?_, rfl, rfl, rfl, rfl⟩
  · unfold callback
    rw [h]
    rfl
  · rfl

/-- C7 witness: with a provider that omits `expires_in`, the cookie
round-trips and MaxAge defaults to 300. -/
theorem session_cookie_roundtrip_attrs_witness :
    ∃ c : CookieSpec,
      (callback defaultConfig envNoExp "goodcode" none).cookieSet = some c ∧
      decodeSessionCookie [(c.key, c.value)] = some tokNoExp.access_token ∧
      c.domain = defaultConfig.cookieDomain ∧
      c.secure = true ∧
      c.httponly = true ∧
      c.max_age = tokNoExp.expires_in.getD 300 :=
  session_cookie_roundtrip_attrs defaultConfig envNoExp "goodcode" none tokNoExp rfl

/-- C8: every forward-auth outcome is exactly one of a 200 with identity
headers, a redirect to the login URL, or a 401; the status is always one
of 200, 307, 401. -/
theorem forward_auth_terminal_outcomes (cfg : Config) (env : Env) (req : Request) :
    ((∃ hs, forward_auth cfg env req = FwdResponse.ok hs) ∨
     (∃ u, forward_auth cfg env req = FwdResponse.redirect u) ∨
      forward_auth cfg env req = FwdResponse.unauthorized) ∧
    ((forward_auth cfg env req).status = 200 ∨
     (forward_auth cfg env req).status = 307 ∨
     (forward_auth cfg env req).status = 401) := by
  cases h : forward_auth cfg env req with
  | ok hs => exact ⟨Or.inl ⟨hs, rfl⟩, Or.inl rfl⟩
  | redirect u => exact ⟨Or.inr (Or.inl ⟨u, rfl⟩), Or.inr (Or.inl rfl)⟩
  | unauthorized => exact ⟨Or.inr (Or.inr rfl), Or.inr (Or.inr rfl)⟩

/-- C9: the service-directory endpoint is a constant: every request gets
the identical static list, regardless of any property of the request. -/
theorem get_services_constant :
    (∀ r₁ r₂ : Request, get_services r₁ = get_services r₂) ∧
    (∀ r : Request, get_services r = SERVICES) :=
  ⟨fun _ _ => rfl, fun _ => rfl⟩

/-- C10: the local `decode_token` branch of the forward-auth handler is
unreachable: `KEYCLOAK_PUBLIC_KEY` is never among the module globals, so
token validation is always the remote userinfo call. -/
theorem decode_token_branch_unreachable :
    moduleGlobals.contains "KEYCLOAK_PUBLIC_KEY" = false ∧
    (∀ (env : Env) (s : String), verifyToken env s = env.userinfo s) :=
  ⟨moduleGlobals_no_public_key, fun env s => verifyToken_eq_userinfo env s⟩

end LymphHub
